import Mathlib

/-!
Verification of the authentication/session subsystem of the spicychat-api
client library (`spicy/_auth.py`, `spicy/_models.py`).

Shallow embedding conventions:
* JSON values are an inductive `Json`; numeric fields are modeled as
  integers (all timestamps and lifetimes in the claims are integral, and
  the comparisons at issue are order comparisons, not float rounding).
* The token file is a `FileState`: missing, malformed (content rejected by
  json.load), or a parsed `Json` value.
* Python exceptions are a `PyError` inductive; fallible operations return
  `Except PyError`.
* Network responses are explicit values passed in as an environment; the
  functions embed exactly the control flow of the source on those values.
-/

namespace Spicy

/-- JSON values as produced by Python json.loads. Numbers are modeled as
integers; duplicate object keys resolve to the last binding, as in Python. -/
inductive Json where
  | null
  | bool (b : Bool)
  | int (n : Int)
  | str (s : String)
  | arr (elems : List Json)
  | obj (fields : List (String × Json))
  deriving Repr

/-- Dictionary lookup on a JSON object field list: Python dicts built by
json.loads keep the last occurrence of a duplicated key. -/
def jsonGet (fields : List (String × Json)) (k : String) : Option Json :=
  (fields.reverse.find? (fun p => p.1 = k)).map (fun p => p.2)

/-- Pydantic string-field validation: accepts exactly a JSON string. -/
def asStr : Option Json → Option String
  | some (.str s) => some s
  | _ => none

/-- Pydantic int-field validation: accepts a JSON integer. -/
def asInt : Option Json → Option Int
  | some (.int n) => some n
  | _ => none

/-- `TokenData` (spicy/_models.py): the credential record. `created_at`
has a default factory stamping the current time when the field is absent. -/
structure TokenData where
  access_token : String
  expires_in : Int
  id_token : String
  refresh_token : String
  scope : String
  token_type : String
  created_at : Int
  deriving Repr, DecidableEq

/-- Python exceptions relevant to the subsystem. `authenticationError` is the
library error; the others are raised by json, pydantic, or the runtime and
are NOT subclasses of AuthenticationError. -/
inductive PyError where
  | authenticationError (msg : String)
  | validationError
  | jsonDecodeError
  | typeError
  | attributeError
  deriving Repr, DecidableEq

/-- `TokenData(**data)` for a parsed JSON value `data`.
A non-mapping raises TypeError (argument after ** must be a mapping);
a mapping with missing or ill-typed fields raises pydantic ValidationError;
an absent `created_at` defaults to the current timestamp `now`. -/
def tokenDataOfJson (j : Json) (now : Int) : Except PyError TokenData :=
  match j with
  | .obj fields =>
    match asStr (jsonGet fields "access_token"), asInt (jsonGet fields "expires_in"),
          asStr (jsonGet fields "id_token"), asStr (jsonGet fields "refresh_token"),
          asStr (jsonGet fields "scope"), asStr (jsonGet fields "token_type") with
    | some a, some e, some i, some r, some sc, some tt =>
      match jsonGet fields "created_at" with
      | none => .ok ⟨a, e, i, r, sc, tt, now⟩
      | some (.int c) => .ok ⟨a, e, i, r, sc, tt, c⟩
      | some _ => .error .validationError
    | _, _, _, _, _, _ => .error .validationError
  | _ => .error .typeError

/-- `model_dump_json`: serialization of a credential record. -/
def TokenData.toJson (t : TokenData) : Json :=
  .obj [("access_token", .str t.access_token),
        ("expires_in", .int t.expires_in),
        ("id_token", .str t.id_token),
        ("refresh_token", .str t.refresh_token),
        ("scope", .str t.scope),
        ("token_type", .str t.token_type),
        ("created_at", .int t.created_at)]

/-- State of the token file (TOKEN_FILE). `malformed` is content that
json.load rejects with JSONDecodeError. -/
inductive FileState where
  | missing
  | malformed
  | json (j : Json)
  deriving Repr

/-- `AuthManager._save_token`: overwrites the file with the serialized record. -/
def save_token (t : TokenData) : FileState :=
  .json t.toJson

/-- `AuthManager._load_token`: returns the loaded record (or none) together
with the resulting file state. JSONDecodeError, TypeError and
FileNotFoundError are caught: the file is removed and none is returned.
Pydantic ValidationError is NOT in the except clause and propagates. -/
def load_token (file : FileState) (now : Int) :
    Except PyError (Option TokenData) × FileState :=
  match file with
  | .missing => (.ok none, .missing)
  | .malformed => (.ok none, .missing)
  | .json j =>
    match tokenDataOfJson j now with
    | .ok t => (.ok (some t), .json j)
    | .error .typeError => (.ok none, .missing)
    | .error e => (.error e, .json j)

/-- In-memory plus persisted credential state of an `AuthManager`. -/
structure AuthState where
  memory : Option TokenData
  file : FileState
  deriving Repr

/-- `AuthManager.get_token`: lazy load, then expiry check
`(now - created_at) > (expires_in - 300)`; on expiry both memory and file
are cleared and none is returned. -/
def get_token (s : AuthState) (now : Int) :
    Except PyError (Option TokenData) × AuthState :=
  let loaded :=
    match s.memory with
    | some t => (Except.ok (some t), s.file)
    | none => load_token s.file now
  match loaded with
  | (.error e, f) => (.error e, { memory := none, file := f })
  | (.ok none, f) => (.ok none, { memory := none, file := f })
  | (.ok (some t), f) =>
    if now - t.created_at > t.expires_in - 300 then
      (.ok none, { memory := none, file := .missing })
    else
      (.ok (some t), { memory := some t, file := f })

/-- Whether the first list starts the second (character-list analogue used
by the substring and URL splitting operations below). -/
def leadsWith : List Char → List Char → Bool
  | [], _ => true
  | _ :: _, [] => false
  | p :: ps, c :: cs => p == c && leadsWith ps cs

/-- Substring occurrence on character lists. -/
def containsChars (pat : List Char) : List Char → Bool
  | [] => pat.isEmpty
  | c :: cs => leadsWith pat (c :: cs) || containsChars pat cs

/-- Python substring test `pat in s`, as character-list occurrence. -/
def containsSubstr (s pat : String) : Bool :=
  containsChars pat.toList s.toList

/-- The fixed phrase the source looks for in the failure HTML. -/
def invalidCodePhrase : String := "Please enter a valid confirmation code"

/-- `str.split(sep, 1)` at a single-character separator: the parts before
and after the first occurrence, or none when the separator is absent. -/
def breakAtChar (sep : Char) : List Char → Option (List Char × List Char)
  | [] => none
  | c :: cs =>
    if c == sep then some ([], cs)
    else match breakAtChar sep cs with
      | none => none
      | some (k, v) => some (c :: k, v)

/-- `str.split` at a single-character separator. -/
def splitChar (sep : Char) : List Char → List (List Char)
  | [] => [[]]
  | c :: cs =>
    if c == sep then [] :: splitChar sep cs
    else match splitChar sep cs with
      | [] => [[c]]
      | g :: gs => (c :: g) :: gs

/-- `urlparse(url).query`: strip the fragment (everything after the first
hash mark), then take everything after the first question mark of the
remainder. -/
def urlQuery (url : String) : String :=
  let noFrag := match breakAtChar '#' url.toList with
    | none => url.toList
    | some (before, _) => before
  match breakAtChar '?' noFrag with
  | none => ""
  | some (_, q) => String.mk q

/-- `parse_qsl` with default arguments: split on ampersands, split each pair
at the first equals sign; pairs without an equals sign or with an empty
value are dropped (keep_blank_values is False). Percent-decoding is not
modeled: the URLs of this subsystem carry no percent-escapes. -/
def parseQsl (qs : String) : List (String × String) :=
  (splitChar '&' qs.toList).filterMap (fun nv =>
    match breakAtChar '=' nv with
    | none => none
    | some (k, v) =>
      if v.isEmpty then none else some (String.mk k, String.mk v))

/-- `parse_qs(...).get(key, [default])[0]`: the first value listed for the
key (parse_qs groups values in encounter order). -/
def qsGet (params : List (String × String)) (k : String) : Option String :=
  (params.find? (fun p => p.1 = k)).map (fun p => p.2)

/-- The authorization-endpoint response as seen by `_request_otp` after
BeautifulSoup parsing: HTTP status, content of the csrf-token meta tag,
value of the p_psid hidden input (none when the tag is absent), and whether
the kbtc session cookie was set. -/
structure OtpPageResponse where
  status : Nat
  csrfTag : Option String
  psidTag : Option String
  kbtcCookie : Bool

/-- `AuthManager._request_otp` applied to the page response. -/
def request_otp (r : OtpPageResponse) : Except PyError (String × String) :=
  if r.status ≠ 200 then
    .error (.authenticationError "Failed to get OTP page")
  else
    match r.csrfTag, r.psidTag with
    | some csrf, some psid =>
      if r.kbtcCookie then .ok (csrf, psid)
      else .error (.authenticationError "Failed to get kbtc cookie")
    | _, _ => .error (.authenticationError "Could not find CSRF token or PSID on the page")

/-- The HTML fragment of a failed OTP submission, as seen after BeautifulSoup
parsing: the raw text, and the stripped text of the element carrying the
inline-validation-message class when such an element exists. -/
structure HtmlDoc where
  raw : String
  invalidMsg : Option String

/-- The nested `json` field of the OTP-submission envelope: the empty string
(also modeling an absent field), a nonempty string json.loads accepts, or a
nonempty string json.loads rejects. -/
inductive NestedField where
  | empty
  | parsed (j : Json)
  | malformed

/-- The JSON-object body of the OTP-submission response: its `json` string
field and its `html` string field. -/
structure OtpEnvelope where
  nested : NestedField
  html : HtmlDoc

/-- The OTP-submission response: HTTP status and body; `body = none` models
a body that `post_response.json()` rejects. -/
structure OtpSubmitResponse where
  status : Nat
  body : Option OtpEnvelope

/-- `AuthManager._submit_otp` applied to the submission response. The OTP,
csrf and psid only shape the outgoing request, which is part of the
environment here, so they are not parameters. `fetch` resolves the redirect
location to the final URL after the client follows all redirects. Returns
the outcome and the number of redirect fetches issued. -/
def submit_otp (resp : OtpSubmitResponse) (fetch : String → String) :
    Except PyError String × Nat :=
  if resp.status ≠ 200 then
    (.error (.authenticationError "OTP submission failed with unexpected status"), 0)
  else
    match resp.body with
    | none =>
      (.error (.authenticationError "Failed to parse redirect information"), 0)
    | some env =>
      match env.nested with
      | .empty =>
        if env.html.raw ≠ "" then
          if containsSubstr env.html.raw invalidCodePhrase then
            (.error (.authenticationError "The code was likely incorrect or expired"), 0)
          else
            match env.html.invalidMsg with
            | some msg =>
              (.error (.authenticationError ("OTP submission failed: " ++ msg)), 0)
            | none =>
              (.error (.authenticationError "HTML response indicating failure, no specific error message"), 0)
        else
          (.error (.authenticationError "Failed to parse redirect information"), 0)
      | .malformed =>
        (.error (.authenticationError "Failed to parse redirect information"), 0)
      | .parsed j =>
        match j with
        | .obj fields =>
          match jsonGet fields "action", jsonGet fields "location" with
          | some (.str a), some loc =>
            if a = "redirect" then
              match loc with
              | .str location =>
                let finalUrl := fetch location
                let params := parseQsl (urlQuery finalUrl)
                match qsGet params "error" with
                | some e =>
                  (.error (.authenticationError ("Server returned error: " ++ e)), 1)
                | none =>
                  match qsGet params "code" with
                  | some c =>
                    if c = "" then
                      (.error (.authenticationError "Could not extract authorization code"), 1)
                    else (.ok c, 1)
                  | none =>
                    (.error (.authenticationError "Could not extract authorization code"), 1)
              | _ => (.error .typeError, 0)
            else
              (.error (.authenticationError "not a valid redirect object"), 0)
          | _, _ =>
            (.error (.authenticationError "not a valid redirect object"), 0)
        | _ => (.error .attributeError, 0)

/-- The token endpoint response body: a parsed JSON value, or content
`response.json()` rejects. -/
inductive TokenBody where
  | json (j : Json)
  | malformed

/-- The token endpoint response: `response.is_success` and the body. -/
structure TokenResponse where
  success : Bool
  body : TokenBody

/-- `AuthManager._exchange_code_for_token` applied to the token endpoint
response: non-success status raises AuthenticationError, otherwise the
record is `TokenData(**response.json())`, with `created_at` stamped by the
default factory (current time) only when the body lacks the field. -/
def exchange_code_for_token (r : TokenResponse) (now : Int) :
    Except PyError TokenData :=
  if !r.success then .error (.authenticationError "Token exchange failed")
  else
    match r.body with
    | .malformed => .error .jsonDecodeError
    | .json j => tokenDataOfJson j now

/-- The environment of one login attempt: the responses produced by the
network and by the caller-supplied OTP callback at each step, and the
current time. -/
structure LoginEnv where
  otpPage : OtpPageResponse
  otpCallback : Except PyError String
  otpSubmit : OtpSubmitResponse
  fetch : String → String
  tokenResp : TokenResponse
  now : Int

/-- `AuthManager.login` (the body under the lock): skip when a record is
already cached or loads from the store, otherwise run the handshake in
order, caching and saving only after a successful exchange. Returns the
outcome, the final credential state, and the number of network requests
issued. -/
def login (s : AuthState) (env : LoginEnv) :
    Except PyError Unit × AuthState × Nat :=
  match s.memory with
  | some t => (.ok (), ⟨some t, s.file⟩, 0)
  | none =>
    match load_token s.file env.now with
    | (.error e, f) => (.error e, ⟨none, f⟩, 0)
    | (.ok (some _), f) => (.ok (), ⟨none, f⟩, 0)
    | (.ok none, f) =>
      match request_otp env.otpPage with
      | .error e => (.error e, ⟨none, f⟩, 1)
      | .ok _ =>
        match env.otpCallback with
        | .error e => (.error e, ⟨none, f⟩, 1)
        | .ok _ =>
          match submit_otp env.otpSubmit env.fetch with
          | (.error e, n) => (.error e, ⟨none, f⟩, 2 + n)
          | (.ok _, n) =>
            match exchange_code_for_token env.tokenResp env.now with
            | .error e => (.error e, ⟨none, f⟩, 3 + n)
            | .ok t => (.ok (), ⟨some t, save_token t⟩, 3 + n)

/-- Whether a login outcome is the library AuthenticationError (and not a
json, pydantic or runtime exception). -/
def isAuthenticationError : Except PyError Unit → Bool
  | .error (.authenticationError _) => true
  | _ => false

/-- When `_load_token` returns a record, the file is left untouched. -/
theorem load_token_ok_some_file (f : FileState) (now : Int) (t : TokenData)
    (h : (load_token f now).1 = .ok (some t)) : (load_token f now).2 = f := by
  cases f with
  | missing => simp [load_token] at h
  | malformed => simp [load_token] at h
  | json j =>
    simp only [load_token] at h ⊢
    split at h <;> simp_all

/-- When `_load_token` returns absent, the token file is gone afterwards:
either it did not exist, or the caught parse failure removed it. -/
theorem load_token_ok_none_file (f : FileState) (now : Int)
    (h : (load_token f now).1 = .ok none) : (load_token f now).2 = .missing := by
  cases f with
  | missing => rfl
  | malformed => rfl
  | json j =>
    simp only [load_token] at h ⊢
    split at h <;> simp_all

/-- C1. The claim reads: get_token returns a record iff
`now - created_at < expires_in - 300`, and at exact equality the record is
treated as expired. The source tests `(now - created_at) > (expires_in - 300)`,
so at exact equality the record is NOT expired and is returned: at
created_at = 0, expires_in = 300, now = 0 the margin is met with equality,
the claimed validity condition is false, yet the record is returned. -/
theorem C1_counterexample :
    (get_token ⟨some ⟨"a", 300, "i", "r", "s", "b", 0⟩, .missing⟩ 0).1
      = .ok (some ⟨"a", 300, "i", "r", "s", "b", 0⟩)
    ∧ ¬ ((0 : Int) - 0 < 300 - 300) := by
  exact ⟨rfl, by decide⟩

/-- C1 (amended): for every record reachable by get_token — cached in memory,
or loaded from the store — get_token returns it iff
`now - created_at ≤ expires_in - 300`: the boundary case is still valid. -/
theorem C1_amended (s : AuthState) (t : TokenData) (now : Int)
    (h : s.memory = some t
        ∨ (s.memory = none ∧ (load_token s.file now).1 = .ok (some t))) :
    (get_token s now).1 = .ok (some t) ↔ now - t.created_at ≤ t.expires_in - 300 := by
  rcases h with hm | ⟨hm, hl⟩
  · by_cases hgt : now - t.created_at > t.expires_in - 300 <;>
      simp [get_token, hm, hgt] <;> omega
  · rcases hup : load_token s.file now with ⟨r, f⟩
    rw [hup] at hl
    replace hl : r = Except.ok (some t) := hl
    subst hl
    by_cases hgt : now - t.created_at > t.expires_in - 300 <;>
      simp [get_token, hm, hup, hgt] <;> omega

/-- C1 (amended) at a concrete boundary input: the record whose margin is
met with equality is returned. -/
theorem C1_amended_witness :
    (get_token ⟨some ⟨"a", 300, "i", "r", "s", "b", 0⟩, .missing⟩ 0).1
      = .ok (some ⟨"a", 300, "i", "r", "s", "b", 0⟩)
    ↔ (0 : Int) - 0 ≤ 300 - 300 :=
  C1_amended ⟨some ⟨"a", 300, "i", "r", "s", "b", 0⟩, .missing⟩
    ⟨"a", 300, "i", "r", "s", "b", 0⟩ 0 (Or.inl rfl)

/-- C2. The claim reads: every structurally failing deserialization —
including valid JSON whose fields do not form a well-typed record — makes
load delete the file and return absent, never propagating an error. On the
content `\x7b"access_token": 5\x7d` (valid JSON, ill-typed fields) the
except clause of the source, which lists only JSONDecodeError, TypeError
and FileNotFoundError, does not catch the pydantic ValidationError: load
propagates it and the file is kept. -/
theorem C2_counterexample :
    load_token (.json (.obj [("access_token", .int 5)])) 0
      = (.error .validationError, .json (.obj [("access_token", .int 5)])) := by
  rfl

/-- C2 (amended): load deletes the file and returns absent exactly for the
caught failures — content json.load rejects, and valid JSON whose top-level
value is not a mapping (TypeError) — while a valid JSON mapping whose fields
do not form a well-typed record raises a validation error that propagates
to the caller, the file left in place. -/
theorem C2_amended (j : Json) (now : Int) :
    load_token .malformed now = (.ok none, .missing)
    ∧ (tokenDataOfJson j now = .error .typeError →
        load_token (.json j) now = (.ok none, .missing))
    ∧ (tokenDataOfJson j now = .error .validationError →
        load_token (.json j) now = (.error .validationError, .json j)) := by
  refine ⟨rfl, ?_, ?_⟩ <;> intro h <;> simp [load_token, h]

/-- C2 (amended) at concrete contents: a non-mapping JSON value is removed
and reported absent; an ill-typed mapping propagates the validation error. -/
theorem C2_amended_witness :
    load_token (.json (.arr [])) 3 = (.ok none, .missing)
    ∧ load_token (.json (.obj [("expires_in", .str "x")])) 3
        = (.error .validationError, .json (.obj [("expires_in", .str "x")])) :=
  ⟨(C2_amended (.arr []) 3).2.1 rfl,
   (C2_amended (.obj [("expires_in", .str "x")]) 3).2.2 rfl⟩

/-- C7: saving a credential record and loading it back yields the record
unchanged in every field (the load also leaves the file in place). -/
theorem C7_roundtrip (t : TokenData) (now : Int) :
    load_token (save_token t) now = (.ok (some t), save_token t) := by
  rfl

/-- A concrete login environment whose every step succeeds, used to
instantiate the login theorems. -/
def demoEnv : LoginEnv :=
  { otpPage := ⟨200, some "c", some "p", true⟩
  , otpCallback := .ok "123456"
  , otpSubmit := ⟨200, some ⟨.parsed (.obj [("action", .str "redirect"),
      ("location", .str "https://example/callback?code=ABC123")]), ⟨"", none⟩⟩⟩
  , fetch := fun u => u
  , tokenResp := ⟨true, .json (.obj [("access_token", .str "x"),
      ("expires_in", .int 3600), ("id_token", .str "i"),
      ("refresh_token", .str "r"), ("scope", .str "s"),
      ("token_type", .str "b")])⟩
  , now := 1000000 }

/-- C3: login returns at once, with zero network requests, whenever a record
is present in memory or loads from the store — with no hypothesis on the
validity of the record: the skip condition of the source tests presence
only, never expiry. -/
theorem C3_login_skip_checks_presence_only (s : AuthState) (env : LoginEnv)
    (t : TokenData)
    (h : s.memory = some t
        ∨ (s.memory = none ∧ (load_token s.file env.now).1 = .ok (some t))) :
    (login s env).1 = .ok () ∧ (login s env).2.2 = 0 := by
  rcases h with hm | ⟨hm, hl⟩
  · simp [login, hm]
  · rcases hup : load_token s.file env.now with ⟨r, f⟩
    rw [hup] at hl
    replace hl : r = Except.ok (some t) := hl
    subst hl
    simp [login, hm, hup]

/-- C3 at a concrete input: the in-memory record is long expired
(now - created_at = 1000000 exceeds expires_in - 300 = 0), yet login skips
the handshake and performs no network request. -/
theorem C3_witness :
    (login ⟨some ⟨"a", 300, "i", "r", "s", "b", 0⟩, .missing⟩ demoEnv).1 = .ok ()
    ∧ (login ⟨some ⟨"a", 300, "i", "r", "s", "b", 0⟩, .missing⟩ demoEnv).2.2 = 0 :=
  C3_login_skip_checks_presence_only
    ⟨some ⟨"a", 300, "i", "r", "s", "b", 0⟩, .missing⟩ demoEnv
    ⟨"a", 300, "i", "r", "s", "b", 0⟩ (Or.inl rfl)

/-- C6: when a valid (unexpired) record is in memory or loads from the
store, login returns without error, performs zero network requests, and
leaves the whole credential state exactly as it was. -/
theorem C6_login_noop_when_valid (s : AuthState) (env : LoginEnv)
    (t : TokenData)
    (hvalid : env.now - t.created_at < t.expires_in - 300)
    (h : s.memory = some t
        ∨ (s.memory = none ∧ (load_token s.file env.now).1 = .ok (some t))) :
    login s env = (.ok (), s, 0) := by
  obtain ⟨mem, file⟩ := s
  rcases h with hm | ⟨hm, hl⟩
  · simp only at hm
    subst hm
    rfl
  · simp only at hm hl
    subst hm
    have hf := load_token_ok_some_file file env.now t hl
    rcases hup : load_token file env.now with ⟨r, f⟩
    rw [hup] at hl hf
    replace hl : r = Except.ok (some t) := hl
    replace hf : f = file := hf
    subst hl
    subst hf
    simp [login, hup]

/-- C6 at a concrete input: a valid record in memory, a margin of
1 < 3300 seconds, no network request, state unchanged. -/
theorem C6_witness :
    login ⟨some ⟨"a", 3600, "i", "r", "s", "b", 999999⟩, .missing⟩ demoEnv
      = (.ok (), ⟨some ⟨"a", 3600, "i", "r", "s", "b", 999999⟩, .missing⟩, 0) :=
  C6_login_noop_when_valid
    ⟨some ⟨"a", 3600, "i", "r", "s", "b", 999999⟩, .missing⟩ demoEnv
    ⟨"a", 3600, "i", "r", "s", "b", 999999⟩ (by norm_num [demoEnv]) (Or.inl rfl)

/-- C5. The claim reads: every failing step propagates as
AuthenticationError. The OTP callback is caller-supplied and its exception
is re-raised unchanged by the source: here the callback fails with a
TypeError, login propagates exactly that error — not an
AuthenticationError — though, as claimed, nothing is persisted. -/
theorem C5_counterexample :
    (login ⟨none, .missing⟩ { demoEnv with otpCallback := .error .typeError }).1
      = .error .typeError
    ∧ isAuthenticationError
        (login ⟨none, .missing⟩
          { demoEnv with otpCallback := .error .typeError }).1 = false
    ∧ (login ⟨none, .missing⟩
          { demoEnv with otpCallback := .error .typeError }).2.1
      = ⟨none, .missing⟩ :=
  ⟨rfl, rfl, rfl⟩

/-- C5 (amended): on every login run that reaches the handshake (no record
in memory, none loads from the store) and fails at any step — OTP request,
OTP callback, OTP submission or token exchange — the error propagates to
the caller (an AuthenticationError for the protocol-level checks of the
source, the original exception for a failing callback or a token-body
parse/validation failure) and no credential is cached or persisted: the
memory slot is empty and the token file absent. -/
theorem C5_amended (s : AuthState) (env : LoginEnv) (e : PyError)
    (hm : s.memory = none)
    (hl : (load_token s.file env.now).1 = .ok none)
    (herr : (login s env).1 = .error e) :
    (login s env).2.1 = ⟨none, .missing⟩ := by
  have hf := load_token_ok_none_file s.file env.now hl
  rcases hup : load_token s.file env.now with ⟨r, f⟩
  rw [hup] at hl hf
  replace hl : r = Except.ok none := hl
  replace hf : f = .missing := hf
  subst hl
  subst hf
  cases h1 : request_otp env.otpPage with
  | error e1 => simp [login, hm, hup, h1]
  | ok v1 =>
    cases h2 : env.otpCallback with
    | error e2 => simp [login, hm, hup, h1, h2]
    | ok v2 =>
      rcases h3 : submit_otp env.otpSubmit env.fetch with ⟨r3, n3⟩
      cases r3 with
      | error e3 => simp [login, hm, hup, h1, h2, h3]
      | ok v3 =>
        cases h4 : exchange_code_for_token env.tokenResp env.now with
        | error e4 => simp [login, hm, hup, h1, h2, h3, h4]
        | ok t4 =>
          rw [login] at herr
          simp [hm, hup, h1, h2, h3, h4] at herr

/-- C5 (amended) at a concrete input: the OTP request fails with HTTP 500,
login fails and leaves memory empty and the token file absent. -/
theorem C5_amended_witness :
    (login ⟨none, .missing⟩
        { demoEnv with otpPage := ⟨500, none, none, false⟩ }).2.1
      = ⟨none, .missing⟩ :=
  C5_amended ⟨none, .missing⟩ { demoEnv with otpPage := ⟨500, none, none, false⟩ }
    (.authenticationError "Failed to get OTP page") rfl rfl rfl

/-- C4. The claim reads: the record built by the exchange always carries the
local receipt time as created_at, and a server-supplied created_at never
determines it. In the source the record is TokenData(**response.json()),
whose default factory fires only when the field is absent: a body carrying
created_at = 0 yields a record with created_at = 0 although the local time
at receipt is 999. -/
theorem C4_counterexample :
    exchange_code_for_token
      ⟨true, .json (.obj [("access_token", .str "x"), ("expires_in", .int 3600),
        ("id_token", .str "i"), ("refresh_token", .str "r"),
        ("scope", .str "s"), ("token_type", .str "b"),
        ("created_at", .int 0)])⟩ 999
      = .ok ⟨"x", 3600, "i", "r", "s", "b", 0⟩
    ∧ (0 : Int) ≠ 999 :=
  ⟨rfl, by decide⟩

/-- C4 (amended): on a successful exchange the record carries
created_at = local current time exactly when the response body has no
created_at field; when the body supplies an integral created_at, that
server value becomes the record field. -/
theorem C4_amended (r : TokenResponse) (fields : List (String × Json))
    (now : Int) (t : TokenData)
    (hsucc : r.success = true) (hbody : r.body = .json (.obj fields))
    (hok : exchange_code_for_token r now = .ok t) :
    (jsonGet fields "created_at" = none → t.created_at = now)
    ∧ ∀ c, jsonGet fields "created_at" = some (.int c) → t.created_at = c := by
  simp only [exchange_code_for_token, hsucc, hbody, Bool.not_true,
    Bool.false_eq_true, if_false, tokenDataOfJson] at hok
  constructor
  · intro hnone
    rw [hnone] at hok
    split at hok
    · have h2 : _ = t := Except.ok.inj hok
      rw [← h2]
    · exact Except.noConfusion hok
  · intro c hc
    rw [hc] at hok
    split at hok
    · have h2 : _ = t := Except.ok.inj hok
      rw [← h2]
    · exact Except.noConfusion hok

/-- C4 (amended) at a concrete input: a body without created_at is stamped
with the local time 999; a body carrying created_at = 5 yields 5. -/
theorem C4_amended_witness :
    ((jsonGet [("access_token", Json.str "x"), ("expires_in", Json.int 3600),
        ("id_token", Json.str "i"), ("refresh_token", Json.str "r"),
        ("scope", Json.str "s"), ("token_type", Json.str "b")] "created_at" = none →
      (⟨"x", 3600, "i", "r", "s", "b", (999 : Int)⟩ : TokenData).created_at = 999)
    ∧ ∀ c, jsonGet [("access_token", Json.str "x"), ("expires_in", Json.int 3600),
        ("id_token", Json.str "i"), ("refresh_token", Json.str "r"),
        ("scope", Json.str "s"), ("token_type", Json.str "b")] "created_at"
          = some (.int c) →
      (⟨"x", 3600, "i", "r", "s", "b", (999 : Int)⟩ : TokenData).created_at = c) :=
  C4_amended
    ⟨true, .json (.obj [("access_token", .str "x"), ("expires_in", .int 3600),
      ("id_token", .str "i"), ("refresh_token", .str "r"),
      ("scope", .str "s"), ("token_type", .str "b")])⟩
    [("access_token", Json.str "x"), ("expires_in", Json.int 3600),
      ("id_token", Json.str "i"), ("refresh_token", Json.str "r"),
      ("scope", Json.str "s"), ("token_type", Json.str "b")]
    999 ⟨"x", 3600, "i", "r", "s", "b", 999⟩ rfl rfl rfl

/-- C8: an HTTP-200 OTP-submission response whose nested json field is
empty and whose html field contains the invalid-confirmation-code phrase
makes submit_otp fail with AuthenticationError, with zero redirect fetches
issued. -/
theorem C8_invalid_code_no_fetch (resp : OtpSubmitResponse)
    (env : OtpEnvelope) (fetch : String → String)
    (hs : resp.status = 200) (hb : resp.body = some env)
    (hn : env.nested = .empty) (hraw : env.html.raw ≠ "")
    (hph : containsSubstr env.html.raw invalidCodePhrase = true) :
    submit_otp resp fetch
      = (.error (.authenticationError "The code was likely incorrect or expired"), 0) := by
  simp [submit_otp, hs, hb, hn, hraw, hph]

/-- C8 at a concrete input: the simulated failure body with the phrase in
its html field fails without any redirect fetch. -/
theorem C8_witness :
    submit_otp
      ⟨200, some ⟨.empty,
        ⟨"<div>Please enter a valid confirmation code</div>", none⟩⟩⟩
      (fun u => u)
      = (.error (.authenticationError "The code was likely incorrect or expired"), 0) :=
  C8_invalid_code_no_fetch
    ⟨200, some ⟨.empty, ⟨"<div>Please enter a valid confirmation code</div>", none⟩⟩⟩
    ⟨.empty, ⟨"<div>Please enter a valid confirmation code</div>", none⟩⟩
    (fun u => u) rfl rfl rfl (by decide) (by decide)

/-- C9: an HTTP-200 OTP-submission response whose nested field parses to an
object with action redirect and the example callback location, together
with a redirect fetch resolving to that same URL, makes submit_otp return
the code ABC123 (with the single redirect fetch issued). -/
theorem C9_success_returns_code (resp : OtpSubmitResponse)
    (env : OtpEnvelope) (fields : List (String × Json))
    (fetch : String → String)
    (hs : resp.status = 200) (hb : resp.body = some env)
    (hn : env.nested = .parsed (.obj fields))
    (ha : jsonGet fields "action" = some (.str "redirect"))
    (hl : jsonGet fields "location"
        = some (.str "https://example/callback?code=ABC123"))
    (hf : fetch "https://example/callback?code=ABC123"
        = "https://example/callback?code=ABC123") :
    submit_otp resp fetch = (.ok "ABC123", 1) := by
  simp only [submit_otp, hs, hb, hn, ha, hl, hf]
  rfl

/-- C9 at a concrete input: the simulated success body returns ABC123. -/
theorem C9_witness :
    submit_otp
      ⟨200, some ⟨.parsed (.obj [("action", .str "redirect"),
        ("location", .str "https://example/callback?code=ABC123")]),
        ⟨"", none⟩⟩⟩
      (fun u => u)
      = (.ok "ABC123", 1) :=
  C9_success_returns_code
    ⟨200, some ⟨.parsed (.obj [("action", .str "redirect"),
      ("location", .str "https://example/callback?code=ABC123")]), ⟨"", none⟩⟩⟩
    ⟨.parsed (.obj [("action", .str "redirect"),
      ("location", .str "https://example/callback?code=ABC123")]), ⟨"", none⟩⟩
    [("action", Json.str "redirect"),
      ("location", Json.str "https://example/callback?code=ABC123")]
    (fun u => u) rfl rfl rfl rfl rfl rfl

/-!
Concurrency model for C10: two concurrent `login` calls on one AuthManager.
asyncio is cooperative: control changes hands only at await points. The
whole login body runs inside `async with self._lock`, whose await points
(the two handshake requests, the OTP callback, the redirect fetch, the
token exchange) suspend without releasing the lock. A task is at `start`
until it acquires the lock; `body k` counts the await points passed inside
the lock; `done b` records whether that task ran the handshake.
-/

/-- Program position of one login task. -/
inductive TaskPc where
  | start
  | body (k : Nat)
  | done (ranHandshake : Bool)
  deriving Repr, DecidableEq

/-- The whole system: shared credential state, lock owner, the two task
positions, and how many handshake sequences have been started. -/
structure SysState where
  auth : AuthState
  lockOwner : Option Bool
  taskA : TaskPc
  taskB : TaskPc
  handshakes : Nat
  deriving Repr

/-- Position of task `i` (`false` is A, `true` is B). -/
def taskOf (s : SysState) (i : Bool) : TaskPc :=
  if i then s.taskB else s.taskA

/-- Replace the position of task `i`. -/
def setTask (s : SysState) (i : Bool) (p : TaskPc) : SysState :=
  if i then { s with taskB := p } else { s with taskA := p }

/-- One scheduler step: the chosen task makes its next atomic transition
when enabled (a task waiting on a held lock, or a finished task, does
nothing). `tok i` is the credential the handshake of task `i` would
produce on success; the environment of C10 is a successful handshake. -/
def taskStep (tok : Bool → TokenData) (now : Int) (s : SysState) (i : Bool) :
    SysState :=
  match taskOf s i with
  | .start =>
    match s.lockOwner with
    | none => setTask { s with lockOwner := some i } i (.body 0)
    | some _ => s
  | .body 0 =>
    match s.auth.memory with
    | some _ => setTask { s with lockOwner := none } i (.done false)
    | none =>
      match load_token s.auth.file now with
      | (.ok (some _), f) =>
        setTask { s with auth := ⟨none, f⟩, lockOwner := none } i (.done false)
      | (.ok none, f) =>
        setTask { s with auth := ⟨none, f⟩, handshakes := s.handshakes + 1 }
          i (.body 1)
      | (.error _, f) =>
        setTask { s with auth := ⟨none, f⟩, lockOwner := none } i (.done false)
  | .body 5 =>
    setTask
      { s with auth := ⟨some (tok i), save_token (tok i)⟩, lockOwner := none }
      i (.done true)
  | .body k => setTask s i (.body (k + 1))
  | .done _ => s

/-- Run a schedule (the list of scheduler choices) from a state. -/
def runSched (tok : Bool → TokenData) (now : Int) :
    List Bool → SysState → SysState
  | [], s => s
  | i :: rest, s => runSched tok now rest (taskStep tok now s i)

/-- Both callers start with no prior credential in memory or store. -/
def initSys : SysState :=
  ⟨⟨none, .missing⟩, none, .start, .start, 0⟩

/-- The credential state after the handshake of task `i` completed. -/
def fullAuth (tok : Bool → TokenData) (i : Bool) : AuthState :=
  ⟨some (tok i), save_token (tok i)⟩

/-- A system state in which task `i` is at `p`, the other task at `q`. -/
def withTasks (auth : AuthState) (lock : Option Bool) (i : Bool)
    (p q : TaskPc) (hs : Nat) : SysState :=
  if i then ⟨auth, lock, q, p, hs⟩ else ⟨auth, lock, p, q, hs⟩

/-- Invariant of the two-login system: the five reachable phases — nobody
started; one task inside the locked body with the other shut out; the
winner finished with the other not yet in; the loser holding the lock at
the skip check; both finished. -/
def loginInv (tok : Bool → TokenData) (s : SysState) : Prop :=
  s = initSys
  ∨ (∃ i k, k ≤ 5 ∧
      s = withTasks ⟨none, .missing⟩ (some i) i (.body k) .start
        (if k = 0 then 0 else 1))
  ∨ (∃ i, s = withTasks (fullAuth tok i) none i (.done true) .start 1)
  ∨ (∃ i, s = withTasks (fullAuth tok i) (some !i) i (.done true) (.body 0) 1)
  ∨ (∃ i, s = withTasks (fullAuth tok i) none i (.done true) (.done false) 1)

/-- Every scheduler step preserves the invariant. -/
theorem loginInv_step (tok : Bool → TokenData) (now : Int) (s : SysState)
    (j : Bool) (h : loginInv tok s) : loginInv tok (taskStep tok now s j) := by
  rcases h with h0 | ⟨i, k, hk, hmid⟩ | ⟨i, hwin⟩ | ⟨i, hloser⟩ | ⟨i, hboth⟩
  · subst h0
    cases j
    · exact Or.inr (Or.inl ⟨false, 0, by norm_num, rfl⟩)
    · exact Or.inr (Or.inl ⟨true, 0, by norm_num, rfl⟩)
  · subst hmid
    interval_cases k <;> cases i <;> cases j
    · exact Or.inr (Or.inl ⟨false, 1, by norm_num, rfl⟩)
    · exact Or.inr (Or.inl ⟨false, 0, by norm_num, rfl⟩)
    · exact Or.inr (Or.inl ⟨true, 0, by norm_num, rfl⟩)
    · exact Or.inr (Or.inl ⟨true, 1, by norm_num, rfl⟩)
    · exact Or.inr (Or.inl ⟨false, 2, by norm_num, rfl⟩)
    · exact Or.inr (Or.inl ⟨false, 1, by norm_num, rfl⟩)
    · exact Or.inr (Or.inl ⟨true, 1, by norm_num, rfl⟩)
    · exact Or.inr (Or.inl ⟨true, 2, by norm_num, rfl⟩)
    · exact Or.inr (Or.inl ⟨false, 3, by norm_num, rfl⟩)
    · exact Or.inr (Or.inl ⟨false, 2, by norm_num, rfl⟩)
    · exact Or.inr (Or.inl ⟨true, 2, by norm_num, rfl⟩)
    · exact Or.inr (Or.inl ⟨true, 3, by norm_num, rfl⟩)
    · exact Or.inr (Or.inl ⟨false, 4, by norm_num, rfl⟩)
    · exact Or.inr (Or.inl ⟨false, 3, by norm_num, rfl⟩)
    · exact Or.inr (Or.inl ⟨true, 3, by norm_num, rfl⟩)
    · exact Or.inr (Or.inl ⟨true, 4, by norm_num, rfl⟩)
    · exact Or.inr (Or.inl ⟨false, 5, by norm_num, rfl⟩)
    · exact Or.inr (Or.inl ⟨false, 4, by norm_num, rfl⟩)
    · exact Or.inr (Or.inl ⟨true, 4, by norm_num, rfl⟩)
    · exact Or.inr (Or.inl ⟨true, 5, by norm_num, rfl⟩)
    · exact Or.inr (Or.inr (Or.inl ⟨false, rfl⟩))
    · exact Or.inr (Or.inl ⟨false, 5, by norm_num, rfl⟩)
    · exact Or.inr (Or.inl ⟨true, 5, by norm_num, rfl⟩)
    · exact Or.inr (Or.inr (Or.inl ⟨true, rfl⟩))
  · subst hwin
    cases i <;> cases j
    · exact Or.inr (Or.inr (Or.inl ⟨false, rfl⟩))
    · exact Or.inr (Or.inr (Or.inr (Or.inl ⟨false, rfl⟩)))
    · exact Or.inr (Or.inr (Or.inr (Or.inl ⟨true, rfl⟩)))
    · exact Or.inr (Or.inr (Or.inl ⟨true, rfl⟩))
  · subst hloser
    cases i <;> cases j
    · exact Or.inr (Or.inr (Or.inr (Or.inl ⟨false, rfl⟩)))
    · exact Or.inr (Or.inr (Or.inr (Or.inr ⟨false, rfl⟩)))
    · exact Or.inr (Or.inr (Or.inr (Or.inr ⟨true, rfl⟩)))
    · exact Or.inr (Or.inr (Or.inr (Or.inl ⟨true, rfl⟩)))
  · subst hboth
    cases i <;> cases j
    · exact Or.inr (Or.inr (Or.inr (Or.inr ⟨false, rfl⟩)))
    · exact Or.inr (Or.inr (Or.inr (Or.inr ⟨false, rfl⟩)))
    · exact Or.inr (Or.inr (Or.inr (Or.inr ⟨true, rfl⟩)))
    · exact Or.inr (Or.inr (Or.inr (Or.inr ⟨true, rfl⟩)))

/-- The invariant holds after any schedule from the initial state. -/
theorem loginInv_run (tok : Bool → TokenData) (now : Int) (sched : List Bool)
    (s : SysState) (h : loginInv tok s) :
    loginInv tok (runSched tok now sched s) := by
  induction sched generalizing s with
  | nil => exact h
  | cons j rest ih => exact ih _ (loginInv_step tok now s j h)

/-- get_token returns the in-memory record when it is within the margin. -/
theorem get_token_memory_valid (t : TokenData) (f : FileState) (now : Int)
    (h : now - t.created_at ≤ t.expires_in - 300) :
    (get_token ⟨some t, f⟩ now).1 = .ok (some t) := by
  have hgt : ¬ (now - t.created_at > t.expires_in - 300) := by omega
  simp [get_token, hgt]

/-- C10: from no prior credential, under every interleaving of two
concurrent login calls in which both callers have returned, exactly one
handshake sequence was executed; the task that ran it finished with the
handshake, the other finished without one, the shared state holds exactly
the winning task's credential in memory and in the store, and a later
get_token within the expiry margin observes that credential. -/
theorem C10_single_handshake (tok : Bool → TokenData) (now : Int)
    (sched : List Bool)
    (hA : ∃ a, (runSched tok now sched initSys).taskA = .done a)
    (hB : ∃ b, (runSched tok now sched initSys).taskB = .done b) :
    (runSched tok now sched initSys).handshakes = 1
    ∧ ∃ i, taskOf (runSched tok now sched initSys) i = .done true
        ∧ taskOf (runSched tok now sched initSys) (!i) = .done false
        ∧ (runSched tok now sched initSys).auth = fullAuth tok i
        ∧ ∀ now2, now2 - (tok i).created_at ≤ (tok i).expires_in - 300 →
            (get_token (runSched tok now sched initSys).auth now2).1
              = .ok (some (tok i)) := by
  have hinv := loginInv_run tok now sched initSys (Or.inl rfl)
  rcases hA with ⟨a, hA⟩
  rcases hB with ⟨b, hB⟩
  rcases hinv with h0 | ⟨i, k, hk, hmid⟩ | ⟨i, hwin⟩ | ⟨i, hloser⟩ | ⟨i, hboth⟩
  · rw [h0] at hA
    exact TaskPc.noConfusion hA
  · cases i
    · rw [hmid] at hB
      exact TaskPc.noConfusion hB
    · rw [hmid] at hA
      exact TaskPc.noConfusion hA
  · cases i
    · rw [hwin] at hB
      exact TaskPc.noConfusion hB
    · rw [hwin] at hA
      exact TaskPc.noConfusion hA
  · cases i
    · rw [hloser] at hB
      exact TaskPc.noConfusion hB
    · rw [hloser] at hA
      exact TaskPc.noConfusion hA
  · rw [hboth]
    cases i
    · exact ⟨rfl, false, rfl, rfl, rfl, fun now2 hle =>
        get_token_memory_valid (tok false) (save_token (tok false)) now2 hle⟩
    · exact ⟨rfl, true, rfl, rfl, rfl, fun now2 hle =>
        get_token_memory_valid (tok true) (save_token (tok true)) now2 hle⟩

/-- C10 at a concrete input: the schedule runs caller A through acquiring
the lock and the whole handshake, scheduling B twice at the end; B skips,
one handshake ran, and the shared credential is the one A produced. -/
theorem C10_witness :
    (runSched (fun _ => ⟨"a", 3600, "i", "r", "s", "b", 0⟩) 0
        [false, false, false, false, false, false, false, true, true]
        initSys).handshakes = 1
    ∧ ∃ i, taskOf (runSched (fun _ => ⟨"a", 3600, "i", "r", "s", "b", 0⟩) 0
          [false, false, false, false, false, false, false, true, true]
          initSys) i = .done true
        ∧ taskOf (runSched (fun _ => ⟨"a", 3600, "i", "r", "s", "b", 0⟩) 0
            [false, false, false, false, false, false, false, true, true]
            initSys) (!i) = .done false
        ∧ (runSched (fun _ => ⟨"a", 3600, "i", "r", "s", "b", 0⟩) 0
            [false, false, false, false, false, false, false, true, true]
            initSys).auth
          = fullAuth (fun _ => ⟨"a", 3600, "i", "r", "s", "b", 0⟩) i
        ∧ ∀ now2, now2 - (0 : Int) ≤ 3600 - 300 →
            (get_token (runSched (fun _ => ⟨"a", 3600, "i", "r", "s", "b", 0⟩) 0
                [false, false, false, false, false, false, false, true, true]
                initSys).auth now2).1
              = .ok (some ⟨"a", 3600, "i", "r", "s", "b", 0⟩) :=
  C10_single_handshake (fun _ => ⟨"a", 3600, "i", "r", "s", "b", 0⟩) 0
    [false, false, false, false, false, false, false, true, true]
    ⟨true, rfl⟩ ⟨false, rfl⟩

end Spicy
